import Mathlib

/-!
Shallow embedding of the BL-Comparision dashboard pipeline (src/lop3.py).

The program merges two spreadsheet sources (rename Rubrics to Category, tag
each row with its academic year, project to a common column set, concatenate,
normalize the five string-typed filter columns), filters the unified table by
five multiselect criteria with an "All" sentinel, and computes grouped means
and percentage aggregates.

Modelling conventions:
- A spreadsheet cell of one of the five filterable columns (State, Centre
  Name, Donor, Subject, Grade) is a `Value`: a raw cell may hold text, a
  number, or be null (pandas NaN).  The merge normalizes exactly these
  columns with astype(str), so after merge they are always `Value.str`.
- Total Marks and Obtained Marks are rationals and Category is text, as the
  data model of the record states (the code passes them through unchanged).
- `Value.toText` models Python str(): it is exact on text cells, on null
  (str(nan) = "nan") and on integral floats (str(3.0) = "3.0"); the textual
  form of a non-integral number is a fixed but unspecified rendering, which
  no verified property depends on.
-/

/-- A raw spreadsheet cell: text, numeric, or null (pandas NaN). -/
inductive Value where
  | str (s : String)
  | num (q : ℚ)
  | null
deriving DecidableEq, Repr

/-- Python str() on a cell: text unchanged, null renders as "nan",
an integral float as for example "3.0". -/
def Value.toText : Value → String
  | .str s => s
  | .num q => if q.den = 1 then toString q.num ++ ".0" else toString q.num ++ "/" ++ toString q.den
  | .null => "nan"

/-- Whether a cell is null (pandas isna). -/
def Value.isNull : Value → Bool
  | .null => true
  | _ => false

/-- pandas Series.isin with a list of selected strings: a cell matches iff it
is a text cell equal to one of them. -/
def Value.isin (v : Value) (sel : List String) : Bool :=
  match v with
  | .str s => sel.contains s
  | _ => false

/-- One row of an uploaded source sheet, restricted to the columns the
pipeline reads.  The five filterable columns are raw cells; marks are
numeric and the performance band is text, as in the data model. -/
structure RawRow where
  state : Value
  centreName : Value
  donor : Value
  subject : Value
  grade : Value
  totalMarks : ℚ
  obtainedMarks : ℚ
  category : String
deriving DecidableEq, Repr

/-- An uploaded source: the list of column names its sheet exposes, and its
rows.  The category cell of a row is stored under the column name
"Rubrics" or "Category", whichever appears in cols. -/
structure Source where
  cols : List String
  rows : List RawRow
deriving Repr

/-- One row of the unified (merged) table.  The five filterable columns stay
cell-typed; after normalization they are always text cells. -/
structure Row where
  state : Value
  centreName : Value
  donor : Value
  subject : Value
  grade : Value
  totalMarks : ℚ
  obtainedMarks : ℚ
  category : String
  academicYear : String
deriving DecidableEq, Repr

/-- Column reconciliation: if a source names the performance band column
"Rubrics", rename that column to "Category" (the cell data is unchanged). -/
def renameRubricsToCategory (s : Source) : Source :=
  if s.cols.contains "Rubrics" then
    { s with cols := s.cols.map (fun c => if c = "Rubrics" then "Category" else c) }
  else s

/-- The required columns of each source after reconciliation; projecting a
source that misses one raises a KeyError in pandas. -/
def requiredCols : List String :=
  ["State", "Centre Name", "Donor", "Subject", "Grade", "Total Marks", "Obtained Marks", "Category"]

/-- A source is valid when every required column is present. -/
def sourceValid (s : Source) : Bool :=
  requiredCols.all (fun c => s.cols.contains c)

/-- Projection of one source row to the common column set, tagged with its
academic year literal. -/
def projectRow (year : String) (r : RawRow) : Row :=
  { state := r.state, centreName := r.centreName, donor := r.donor,
    subject := r.subject, grade := r.grade, totalMarks := r.totalMarks,
    obtainedMarks := r.obtainedMarks, category := r.category, academicYear := year }

/-- Python str.strip(): drop leading and trailing whitespace characters. -/
def pyStrip (s : String) : String :=
  String.mk (((s.data.dropWhile Char.isWhitespace).reverse.dropWhile Char.isWhitespace).reverse)

/-- Normalization of a plain string column: astype(str).str.strip(). -/
def normStrCell (v : Value) : Value :=
  .str (pyStrip v.toText)

/-- One substitution of the regex of a literal ".0" anchored by a dollar,
on the reversed character list.  In Python re the dollar matches at the end
of the string or just before a newline that is the last character, and the
two cases exclude each other, so the reversed list starts either with a
newline followed by the two characters of ".0" (keep the newline, drop the
two), or with the two characters of ".0" (drop them). -/
def stripRev (l : List Char) : List Char :=
  if l.take 3 = ['\n', '0', '.'] then '\n' :: l.drop 3
  else if l.take 2 = ['0', '.'] then l.drop 2
  else l

/-- Grade text normalization, the regex replacement of the source: remove
one ".0" at the end of the text or just before its trailing newline. -/
def stripDotZero (s : String) : String :=
  String.mk (stripRev s.data.reverse).reverse

/-- Normalization of the Grade column: astype(str) then the ".0" strip. -/
def normGradeCell (v : Value) : Value :=
  .str (stripDotZero v.toText)

/-- Row-wise effect of the column normalization loop after concatenation. -/
def normalizeRow (r : Row) : Row :=
  { r with state := normStrCell r.state, centreName := normStrCell r.centreName,
           donor := normStrCell r.donor, subject := normStrCell r.subject,
           grade := normGradeCell r.grade }

/-- load_and_prep_data of the source: reconcile the Rubrics column of both
sources, tag years, project both to the common columns (failing when a
required column is absent), concatenate, then normalize string columns. -/
def load_and_prep_data (a b : Source) : Except String (List Row) :=
  let a1 := renameRubricsToCategory a
  let b1 := renameRubricsToCategory b
  if sourceValid a1 && sourceValid b1 then
    let combined := a1.rows.map (projectRow "AY 24-25") ++ b1.rows.map (projectRow "AY 25-26")
    .ok (combined.map normalizeRow)
  else
    .error "SchemaError: a required column is missing from a source"

/-- The five multiselect criteria of the sidebar, each a list of selected
string values possibly containing the sentinel "All". -/
structure Criteria where
  states : List String
  centres : List String
  donors : List String
  subjects : List String
  grades : List String
deriving Repr

/-- One conditional filter step: if "All" is among the selected values the
frame passes unchanged, otherwise keep the rows whose cell is in the
selection (one `if "All" not in selected` block of the source). -/
def applyStrFilter (proj : Row → Value) (sel : List String) (d : List Row) : List Row :=
  if sel.contains "All" then d else d.filter (fun r => (proj r).isin sel)

/-- filtered_df: the five filter steps applied in the order of the source
(State, Centre Name, Donor, Subject, Grade). -/
def filtered_df (df : List Row) (c : Criteria) : List Row :=
  applyStrFilter (fun r => r.grade) c.grades
    (applyStrFilter (fun r => r.subject) c.subjects
      (applyStrFilter (fun r => r.donor) c.donors
        (applyStrFilter (fun r => r.centreName) c.centres
          (applyStrFilter (fun r => r.state) c.states df))))

/-- pandas Series.dropna on a cell column. -/
def dropna (l : List Value) : List Value :=
  l.filter (fun v => !v.isNull)

/-- Candidate filter values of one column: "All" prepended to the sorted
distinct non-null values (the states, centres, donors, subjects, grades
lists of the sidebar). -/
def candidateValues (col : List Value) : List String :=
  "All" :: (List.insertionSort (fun a b => a ≤ b) ((dropna col).dedup.map Value.toText))

/-- pandas Series.mean over a list of numbers: NaN (here none) when the
series is empty, otherwise the arithmetic mean. -/
def seriesMean (l : List ℚ) : Option ℚ :=
  if l.isEmpty then none else some (l.sum / l.length)

/-- The rows of the filtered table tagged with a given academic year. -/
def yearRows (df : List Row) (y : String) : List Row :=
  df.filter (fun r => decide (r.academicYear = y))

/-- avg_marks_24: mean Obtained Marks of the filtered rows tagged AY 24-25. -/
def avg_marks_24 (df : List Row) : Option ℚ :=
  seriesMean ((yearRows df "AY 24-25").map (fun r => r.obtainedMarks))

/-- avg_marks_25: mean Obtained Marks of the filtered rows tagged AY 25-26. -/
def avg_marks_25 (df : List Row) : Option ℚ :=
  seriesMean ((yearRows df "AY 25-26").map (fun r => r.obtainedMarks))

/-- The delta of the third KPI metric: shown only when both yearly means are
defined (pd.notna on both), otherwise absent. -/
def kpiDelta (df : List Row) : Option ℚ :=
  match avg_marks_25 df, avg_marks_24 df with
  | some a25, some a24 => some (a25 - a24)
  | _, _ => none

/-- Mean Obtained Marks grouped by a key: one entry per distinct key of the
frame, carrying the mean of its group (groupby(...).mean()).  The claims
constrain the multiset of entries, not the display order of group keys. -/
def groupMeanMarks {α : Type} [DecidableEq α] (key : Row → α) (df : List Row) : List (α × ℚ) :=
  (df.map key).dedup.map (fun k =>
    (k, ((df.filter (fun r => key r = k)).map (fun r => r.obtainedMarks)).sum /
        ((df.filter (fun r => key r = k)).length : ℚ)))

/-- avg_subj: mean Obtained Marks grouped by (Subject, Academic Year). -/
def avg_subj (df : List Row) : List ((Value × String) × ℚ) :=
  groupMeanMarks (fun r => (r.subject, r.academicYear)) df

/-- avg_state: mean Obtained Marks grouped by (State, Academic Year). -/
def avg_state (df : List Row) : List ((Value × String) × ℚ) :=
  groupMeanMarks (fun r => (r.state, r.academicYear)) df

/-- The (Academic Year, Category) key of every row of a frame, the grouping
key list of the category breakdown. -/
def yearCatPairs (df : List Row) : List (String × String) :=
  df.map (fun r => (r.academicYear, r.category))

/-- cat_counts before the percentage column: row count grouped by
(Academic Year, Category), one entry per distinct key. -/
def cat_counts (df : List Row) : List ((String × String) × ℕ) :=
  (yearCatPairs df).dedup.map (fun k =>
    (k, ((yearCatPairs df).filter (fun x => decide (x = k))).length))

/-- The Percentage column of cat_counts: each group count divided by the sum
of the counts sharing its Academic Year, times 100 (the groupby transform
of the source). -/
def catPercentages (df : List Row) : List ((String × String) × ℚ) :=
  (cat_counts df).map (fun e =>
    (e.1, (e.2 : ℚ) /
      ((((cat_counts df).filter (fun e2 => decide (e2.1.1 = e.1.1))).map
          (fun e2 => e2.2)).sum : ℕ) * 100))

/-- The aggregate outputs computed for a non-empty filtered table. -/
structure Aggregates where
  totalStudents : ℕ
  avg24 : Option ℚ
  avg25 : Option ℚ
  delta : Option ℚ
  perSubject : List ((Value × String) × ℚ)
  perCategory : List ((String × String) × ℚ)
  perState : List ((Value × String) × ℚ)
deriving Repr

/-- The four aggregate computations of the dashboard body. -/
def summarize (df : List Row) : Aggregates :=
  { totalStudents := df.length,
    avg24 := avg_marks_24 df,
    avg25 := avg_marks_25 df,
    delta := kpiDelta df,
    perSubject := avg_subj df,
    perCategory := catPercentages df,
    perState := avg_state df }

/-- What the dashboard body shows for a filtered table: either the guidance
message alone, or the aggregates. -/
inductive DashboardOutput where
  | noData (msg : String)
  | charts (agg : Aggregates)
deriving Repr

/-- The empty-result guard of the body: an empty filtered table produces the
warning message and no aggregate is computed. -/
def render (df : List Row) : DashboardOutput :=
  if df.isEmpty then
    .noData "No data available for the selected filters. Please adjust your selection."
  else
    .charts (summarize df)

/-! ## Sample data used by witnesses -/

/-- A sample raw row of the first source (null Donor, numeric Grade). -/
def sampleRawA : RawRow :=
  { state := Value.str " Tamil Nadu ", centreName := Value.str "Centre 1",
    donor := Value.null, subject := Value.str "Math", grade := Value.num 3,
    totalMarks := 100, obtainedMarks := 45, category := "Advanced" }

/-- A sample raw row of the second source (Grade stored as text). -/
def sampleRawB : RawRow :=
  { state := Value.str "Kerala", centreName := Value.str "Centre 2",
    donor := Value.str "Donor B", subject := Value.str "Math", grade := Value.str "3.0",
    totalMarks := 100, obtainedMarks := 62, category := "Basic" }

/-- A sample first source, exposing the Rubrics column name. -/
def sourceA : Source :=
  { cols := ["State", "Centre Name", "Donor", "Subject", "Grade", "Total Marks",
             "Obtained Marks", "Rubrics"],
    rows := [sampleRawA] }

/-- A sample second source, exposing the Category column name. -/
def sourceB : Source :=
  { cols := requiredCols, rows := [sampleRawB] }

/-- The unified table the sample sources merge to. -/
def mergedSample : List Row :=
  [normalizeRow (projectRow "AY 24-25" sampleRawA),
   normalizeRow (projectRow "AY 25-26" sampleRawB)]

/-! ## Helper lemmas -/

/-- Each filter step returns a subsequence of its input frame. -/
theorem applyStrFilter_sublist (p : Row → Value) (sel : List String) (d : List Row) :
    List.Sublist (applyStrFilter p sel d) d := by
  unfold applyStrFilter
  split
  · exact List.Sublist.refl d
  · exact List.filter_sublist d

/-! ## Claims -/

/-- C3: filtering the unified table with every criterion set to the "All"
sentinel returns the table unchanged in row count and content. -/
theorem filter_all_sentinel_identity (df : List Row) :
    filtered_df df { states := ["All"], centres := ["All"], donors := ["All"],
                     subjects := ["All"], grades := ["All"] } = df := by
  simp [filtered_df, applyStrFilter]

/-- C8: the filtered table is a subsequence of the unified table: every
filtered row appears unmodified, none is duplicated, in the original
relative order. -/
theorem filtered_sublist (df : List Row) (c : Criteria) :
    List.Sublist (filtered_df df c) df := by
  unfold filtered_df
  exact ((((applyStrFilter_sublist _ _ _).trans
    (applyStrFilter_sublist _ _ _)).trans
    (applyStrFilter_sublist _ _ _)).trans
    (applyStrFilter_sublist _ _ _)).trans
    (applyStrFilter_sublist _ _ _)

/-- C9: whenever the "All" sentinel appears among the selected values of a
column, even next to explicit values, that column passes every row and its
predicate is dropped. -/
theorem all_sentinel_dominates (p : Row → Value) (sel : List String) (d : List Row)
    (h : sel.contains "All" = true) : applyStrFilter p sel d = d := by
  unfold applyStrFilter
  rw [h]
  simp

/-- C9 witness: a selection mixing "All" with an explicit value keeps a row
whose cell matches neither listed value. -/
theorem all_sentinel_dominates_witness :
    applyStrFilter (fun r => r.state) ["All", "Kerala"] mergedSample = mergedSample :=
  all_sentinel_dominates (fun r => r.state) ["All", "Kerala"] mergedSample (by decide)

/-- C6: an empty filtered result short-circuits all aggregate computation
and produces the guidance message, as a valid terminal output rather than
an exception. -/
theorem empty_filter_no_data (df : List Row) (c : Criteria)
    (h : filtered_df df c = []) :
    render (filtered_df df c) =
      DashboardOutput.noData
        "No data available for the selected filters. Please adjust your selection." := by
  rw [h]
  rfl

/-- C6 witness: a selection naming a subject absent from the table yields the
no-data terminal state. -/
theorem empty_filter_no_data_witness :
    render (filtered_df mergedSample
      { states := ["All"], centres := ["All"], donors := ["All"],
        subjects := ["Chemistry"], grades := ["All"] }) =
      DashboardOutput.noData
        "No data available for the selected filters. Please adjust your selection." :=
  empty_filter_no_data mergedSample
    { states := ["All"], centres := ["All"], donors := ["All"],
      subjects := ["Chemistry"], grades := ["All"] } (by decide)

/-- Whether the text of a value ends in one of the three suffix shapes on
which a second ".0" substitution still finds a match after a first one:
".0.0", ".0.0" followed by a newline, or ".0" then a newline then ".0". -/
def gradeStripUnstable (s : String) : Bool :=
  s.data.reverse.take 4 == ['0', '.', '0', '.'] ||
  s.data.reverse.take 5 == ['\n', '0', '.', '0', '.'] ||
  s.data.reverse.take 5 == ['0', '.', '\n', '0', '.']

/-- The dollar-anchored ".0" substitution finds a second match only on a
reversed list starting with one of the three unstable shapes. -/
theorem stripRev_stripRev (l : List Char)
    (h4 : l.take 4 ≠ ['0', '.', '0', '.'])
    (h5a : l.take 5 ≠ ['\n', '0', '.', '0', '.'])
    (h5b : l.take 5 ≠ ['0', '.', '\n', '0', '.']) :
    stripRev (stripRev l) = stripRev l := by
  by_cases hA : l.take 3 = ['\n', '0', '.']
  · have hs : stripRev l = '\n' :: l.drop 3 := by
      unfold stripRev
      rw [if_pos hA]
    have hn1 : ('\n' :: l.drop 3).take 3 ≠ ['\n', '0', '.'] := by
      intro hc
      rw [List.take_succ_cons] at hc
      injection hc with h1 h2
      apply h5a
      rw [show (5 : ℕ) = 3 + 2 from rfl, List.take_add, hA, h2]
      rfl
    have hn2 : ('\n' :: l.drop 3).take 2 ≠ ['0', '.'] := by
      intro hc
      rw [List.take_succ_cons] at hc
      injection hc with h1 h2
      exact absurd h1 (by decide)
    rw [hs]
    unfold stripRev
    rw [if_neg hn1, if_neg hn2]
  · by_cases hB : l.take 2 = ['0', '.']
    · have hs : stripRev l = l.drop 2 := by
        unfold stripRev
        rw [if_neg hA, if_pos hB]
      have hn1 : (l.drop 2).take 3 ≠ ['\n', '0', '.'] := by
        intro hc
        apply h5b
        rw [show (5 : ℕ) = 2 + 3 from rfl, List.take_add, hB, hc]
        rfl
      have hn2 : (l.drop 2).take 2 ≠ ['0', '.'] := by
        intro hc
        apply h4
        rw [show (4 : ℕ) = 2 + 2 from rfl, List.take_add, hB, hc]
        rfl
      rw [hs]
      unfold stripRev
      rw [if_neg hn1, if_neg hn2]
    · have hs : stripRev l = l := by
        unfold stripRev
        rw [if_neg hA, if_neg hB]
      rw [hs, hs]

/-- The string form of the previous lemma, for the Grade text strip. -/
theorem stripDotZero_stripDotZero (s : String) (h : gradeStripUnstable s = false) :
    stripDotZero (stripDotZero s) = stripDotZero s := by
  rw [gradeStripUnstable] at h
  simp only [Bool.or_eq_false_iff, beq_eq_false_iff_ne] at h
  show String.mk (stripRev (String.mk (stripRev s.data.reverse).reverse).data.reverse).reverse =
    String.mk (stripRev s.data.reverse).reverse
  rw [show (String.mk (stripRev s.data.reverse).reverse).data =
        (stripRev s.data.reverse).reverse from rfl]
  rw [List.reverse_reverse]
  rw [stripRev_stripRev _ h.1.1 h.1.2 h.2]

/-- The substitution also fires just before a trailing newline, as the
dollar of the source regex does in Python re. -/
theorem stripDotZero_trailing_newline : stripDotZero "3.0\n" = "3\n" := by
  decide

/-- C7 counterexample: grade normalization applied to the already-normalized
text "3.0" of the value "3.0.0" strips a second ".0": the normalization is
not idempotent on every string value. -/
theorem grade_norm_not_idempotent :
    ¬ (normGradeCell (normGradeCell (Value.str "3.0.0")) =
        normGradeCell (Value.str "3.0.0")) := by
  decide

/-- C7 amended: grade normalization (coerce to text, then strip one ".0" at
the end or just before a trailing newline) is idempotent on every value
whose text ends in none of ".0.0", ".0.0" followed by a newline, and ".0"
then a newline then ".0". -/
theorem grade_norm_idempotent_unless_double_suffix (v : Value)
    (h : gradeStripUnstable v.toText = false) :
    normGradeCell (normGradeCell v) = normGradeCell v := by
  show Value.str (stripDotZero (stripDotZero v.toText)) = Value.str (stripDotZero v.toText)
  rw [stripDotZero_stripDotZero v.toText h]

/-- C7 amended witness: the normalization fixes the already-normal text "3"
of "3.0" in place. -/
theorem grade_norm_idempotent_witness :
    normGradeCell (normGradeCell (Value.str "3.0")) = normGradeCell (Value.str "3.0") :=
  grade_norm_idempotent_unless_double_suffix (Value.str "3.0") (by decide)

/-- C4: the KPI delta is absent exactly when one of the two year groups of
the filtered table is empty, and otherwise equals the mean Obtained Marks
of the AY 25-26 rows minus the mean Obtained Marks of the AY 24-25 rows. -/
theorem kpi_delta_spec (df : List Row) :
    kpiDelta df =
      if yearRows df "AY 24-25" = [] ∨ yearRows df "AY 25-26" = [] then none
      else some
        (((yearRows df "AY 25-26").map (fun r => r.obtainedMarks)).sum /
           ((yearRows df "AY 25-26").length : ℚ) -
         ((yearRows df "AY 24-25").map (fun r => r.obtainedMarks)).sum /
           ((yearRows df "AY 24-25").length : ℚ)) := by
  unfold kpiDelta avg_marks_24 avg_marks_25 seriesMean
  by_cases h24 : yearRows df "AY 24-25" = []
  · simp [h24]
  · by_cases h25 : yearRows df "AY 25-26" = []
    · simp [h24, h25]
    · simp [h24, h25]

/-- Column reconciliation renames a column, leaving row data untouched. -/
theorem renameRubrics_rows (s : Source) : (renameRubricsToCategory s).rows = s.rows := by
  unfold renameRubricsToCategory
  split <;> rfl

/-- C1: when both sources pass required-column validation, the merged table
has exactly as many rows as the two sources together. -/
theorem merge_row_count_additive (a b : Source) (l : List Row)
    (h : load_and_prep_data a b = .ok l) :
    l.length = a.rows.length + b.rows.length := by
  simp only [load_and_prep_data] at h
  split at h
  · simp only [Except.ok.injEq] at h
    subst h
    simp [renameRubrics_rows]
  · exact absurd h (by simp)

/-- C1 witness: the sample merge of one row per source has two rows. -/
theorem merge_row_count_additive_witness :
    mergedSample.length = sourceA.rows.length + sourceB.rows.length :=
  merge_row_count_additive sourceA sourceB mergedSample rfl

/-- C2: the merged table splits into a leading block of rows from the first
source, all tagged "AY 24-25", followed by a block of rows from the second
source, all tagged "AY 25-26"; in particular every merged row carries one
of those two Academic Year literals. -/
theorem merge_year_tags (a b : Source) (l : List Row)
    (h : load_and_prep_data a b = .ok l) :
    ∃ la lb, l = la ++ lb ∧ la.length = a.rows.length ∧ lb.length = b.rows.length ∧
      (∀ r ∈ la, r.academicYear = "AY 24-25") ∧
      (∀ r ∈ lb, r.academicYear = "AY 25-26") ∧
      (∀ r ∈ l, r.academicYear = "AY 24-25" ∨ r.academicYear = "AY 25-26") := by
  simp only [load_and_prep_data] at h
  split at h
  · simp only [Except.ok.injEq] at h
    subst h
    refine ⟨((renameRubricsToCategory a).rows.map (projectRow "AY 24-25")).map normalizeRow,
            ((renameRubricsToCategory b).rows.map (projectRow "AY 25-26")).map normalizeRow,
            ?_, ?_, ?_, ?_, ?_, ?_⟩
    · rw [List.map_append]
    · simp [renameRubrics_rows]
    · simp [renameRubrics_rows]
    · intro r hr
      simp only [List.map_map, List.mem_map] at hr
      obtain ⟨x, _, rfl⟩ := hr
      rfl
    · intro r hr
      simp only [List.map_map, List.mem_map] at hr
      obtain ⟨x, _, rfl⟩ := hr
      rfl
    · intro r hr
      rw [List.map_append] at hr
      rcases List.mem_append.mp hr with h1 | h1 <;>
        simp only [List.map_map, List.mem_map] at h1 <;>
        obtain ⟨x, _, rfl⟩ := h1
      · exact Or.inl rfl
      · exact Or.inr rfl
  · exact absurd h (by simp)

/-- C2 witness: the sample merge splits into its tagged blocks. -/
theorem merge_year_tags_witness :
    ∃ la lb, mergedSample = la ++ lb ∧ la.length = sourceA.rows.length ∧
      lb.length = sourceB.rows.length ∧
      (∀ r ∈ la, r.academicYear = "AY 24-25") ∧
      (∀ r ∈ lb, r.academicYear = "AY 25-26") ∧
      (∀ r ∈ mergedSample, r.academicYear = "AY 24-25" ∨ r.academicYear = "AY 25-26") :=
  merge_year_tags sourceA sourceB mergedSample rfl

/-- C10: after the merge every cell of the five filterable columns is a text
cell, so the dropna step of candidate filter-value derivation removes
nothing; the normalization sends a null cell to the literal text "nan". -/
theorem merged_columns_no_nulls (a b : Source) (l : List Row)
    (h : load_and_prep_data a b = .ok l) :
    dropna (l.map (fun r => r.state)) = l.map (fun r => r.state) ∧
    dropna (l.map (fun r => r.centreName)) = l.map (fun r => r.centreName) ∧
    dropna (l.map (fun r => r.donor)) = l.map (fun r => r.donor) ∧
    dropna (l.map (fun r => r.subject)) = l.map (fun r => r.subject) ∧
    dropna (l.map (fun r => r.grade)) = l.map (fun r => r.grade) ∧
    normStrCell Value.null = Value.str "nan" := by
  simp only [load_and_prep_data] at h
  split at h
  · simp only [Except.ok.injEq] at h
    subst h
    refine ⟨?_, ?_, ?_, ?_, ?_, rfl⟩ <;>
      (unfold dropna
       rw [List.filter_eq_self]
       intro v hv
       simp only [List.map_append, List.map_map, List.mem_append, List.mem_map] at hv
       rcases hv with ⟨x, _, rfl⟩ | ⟨x, _, rfl⟩ <;> rfl)
  · exact absurd h (by simp)

/-- C10 witness: the sample merge, whose first row has a null Donor cell,
has no null among its filterable columns. -/
theorem merged_columns_no_nulls_witness :
    dropna (mergedSample.map (fun r => r.state)) = mergedSample.map (fun r => r.state) ∧
    dropna (mergedSample.map (fun r => r.centreName)) =
      mergedSample.map (fun r => r.centreName) ∧
    dropna (mergedSample.map (fun r => r.donor)) = mergedSample.map (fun r => r.donor) ∧
    dropna (mergedSample.map (fun r => r.subject)) = mergedSample.map (fun r => r.subject) ∧
    dropna (mergedSample.map (fun r => r.grade)) = mergedSample.map (fun r => r.grade) ∧
    normStrCell Value.null = Value.str "nan" :=
  merged_columns_no_nulls sourceA sourceB mergedSample rfl

/-- Deduplication commutes with filtering. -/
theorem dedup_filter_comm {α : Type} [DecidableEq α] (p : α → Bool) (l : List α) :
    (l.filter p).dedup = l.dedup.filter p := by
  induction l with
  | nil => rfl
  | cons a t ih =>
    by_cases hp : p a = true
    · rw [List.filter_cons_of_pos hp]
      by_cases hm : a ∈ t
      · have hmf : a ∈ t.filter p := List.mem_filter.mpr ⟨hm, hp⟩
        rw [List.dedup_cons_of_mem hmf, ih, List.dedup_cons_of_mem hm]
      · have hmf : a ∉ t.filter p := fun hc => hm (List.mem_filter.mp hc).1
        rw [List.dedup_cons_of_not_mem hmf, ih, List.dedup_cons_of_not_mem hm,
            List.filter_cons_of_pos hp]
    · rw [List.filter_cons_of_neg hp, ih]
      by_cases hm : a ∈ t
      · rw [List.dedup_cons_of_mem hm]
      · rw [List.dedup_cons_of_not_mem hm, List.filter_cons_of_neg hp]

/-- Counting the occurrences of a key by filtering is List.count. -/
theorem length_filter_eq_count {α : Type} [DecidableEq α] (l : List α) (k : α) :
    (l.filter (fun x => decide (x = k))).length = l.count k := by
  rw [List.count, List.countP_eq_length_filter]
  have hf : (fun x : α => decide (x = k)) = (fun x => x == k) := by
    funext x
    by_cases hx : x = k <;> simp [hx]
  rw [hf]

/-- The group sizes of the keys selected by a predicate add up to the number
of list elements the predicate selects. -/
theorem sum_group_sizes {α : Type} [DecidableEq α] (l : List α) (q : α → Bool) :
    ((l.dedup.filter q).map (fun k => (l.filter (fun x => decide (x = k))).length)).sum =
      (l.filter q).length := by
  rw [← dedup_filter_comm]
  have h1 : (l.filter q).dedup.map (fun k => (l.filter (fun x => decide (x = k))).length) =
      (l.filter q).dedup.map (fun k => (l.filter q).count k) := by
    apply List.map_congr_left
    intro k hk
    rw [length_filter_eq_count]
    exact (List.count_filter ((List.mem_filter.mp (List.mem_dedup.mp hk)).2)).symm
  rw [h1, List.sum_map_count_dedup_eq_length]

/-- Summing percentages against a common denominator. -/
theorem sum_map_div_mul (l : List ℕ) (T : ℚ) :
    (l.map (fun n : ℕ => (n : ℚ) / T * 100)).sum = (l.sum : ℚ) / T * 100 := by
  induction l with
  | nil => simp
  | cons a t ih =>
    simp only [List.map_cons, List.sum_cons, ih]
    push_cast
    ring

/-- C5: in the per-category distribution of any non-empty year group, the
groupby-transform denominator is that year's total row count, and the
percentages of the year's categories sum to 100. -/
theorem cat_percentages_sum_100 (df : List Row) (y : String)
    (h : yearRows df y ≠ []) :
    ((((cat_counts df).filter (fun e => decide (e.1.1 = y))).map (fun e => e.2)).sum
        = (yearRows df y).length) ∧
    (((catPercentages df).filter (fun e => decide (e.1.1 = y))).map (fun e => e.2)).sum
        = 100 := by
  have hcc : (cat_counts df).filter (fun e => decide (e.1.1 = y)) =
      ((yearCatPairs df).dedup.filter (fun k => decide (k.1 = y))).map (fun k =>
        (k, ((yearCatPairs df).filter (fun x => decide (x = k))).length)) := by
    unfold cat_counts
    rw [List.filter_map]
    rfl
  have hyl : (yearCatPairs df).filter (fun k => decide (k.1 = y)) =
      (yearRows df y).map (fun r => (r.academicYear, r.category)) := by
    unfold yearCatPairs yearRows
    rw [List.filter_map]
    rfl
  have hden : (((cat_counts df).filter (fun e => decide (e.1.1 = y))).map
      (fun e => e.2)).sum = (yearRows df y).length := by
    rw [hcc, List.map_map]
    have : ((fun e : (String × String) × ℕ => e.2) ∘ (fun k =>
        (k, ((yearCatPairs df).filter (fun x => decide (x = k))).length))) =
        (fun k => ((yearCatPairs df).filter (fun x => decide (x = k))).length) := rfl
    rw [this, sum_group_sizes, hyl, List.length_map]
  refine ⟨hden, ?_⟩
  have hcp : (catPercentages df).filter (fun e => decide (e.1.1 = y)) =
      ((cat_counts df).filter (fun e => decide (e.1.1 = y))).map (fun e =>
        (e.1, (e.2 : ℚ) /
          ((((cat_counts df).filter (fun e2 => decide (e2.1.1 = e.1.1))).map
              (fun e2 => e2.2)).sum : ℕ) * 100)) := by
    unfold catPercentages
    rw [List.filter_map]
    rfl
  rw [hcp, List.map_map]
  have hone : ((fun e : (String × String) × ℚ => e.2) ∘ (fun e : (String × String) × ℕ =>
      (e.1, (e.2 : ℚ) /
        ((((cat_counts df).filter (fun e2 => decide (e2.1.1 = e.1.1))).map
            (fun e2 => e2.2)).sum : ℕ) * 100))) =
      (fun e : (String × String) × ℕ => (e.2 : ℚ) /
        ((((cat_counts df).filter (fun e2 => decide (e2.1.1 = e.1.1))).map
            (fun e2 => e2.2)).sum : ℕ) * 100) := rfl
  rw [hone]
  have hcg : ((cat_counts df).filter (fun e => decide (e.1.1 = y))).map
      (fun e : (String × String) × ℕ => (e.2 : ℚ) /
        ((((cat_counts df).filter (fun e2 => decide (e2.1.1 = e.1.1))).map
            (fun e2 => e2.2)).sum : ℕ) * 100) =
      ((cat_counts df).filter (fun e => decide (e.1.1 = y))).map
      (fun e : (String × String) × ℕ => (e.2 : ℚ) /
        ((((cat_counts df).filter (fun e2 => decide (e2.1.1 = y))).map
            (fun e2 => e2.2)).sum : ℕ) * 100) := by
    apply List.map_congr_left
    intro e he
    have he1 : e.1.1 = y := of_decide_eq_true (List.mem_filter.mp he).2
    rw [he1]
  rw [hcg]
  have hmm : ((cat_counts df).filter (fun e => decide (e.1.1 = y))).map
      (fun e : (String × String) × ℕ => (e.2 : ℚ) /
        ((((cat_counts df).filter (fun e2 => decide (e2.1.1 = y))).map
            (fun e2 => e2.2)).sum : ℕ) * 100) =
      (((cat_counts df).filter (fun e => decide (e.1.1 = y))).map (fun e => e.2)).map
      (fun n : ℕ => (n : ℚ) /
        ((((cat_counts df).filter (fun e2 => decide (e2.1.1 = y))).map
            (fun e2 => e2.2)).sum : ℕ) * 100) := by
    rw [List.map_map]
    rfl
  rw [hmm, sum_map_div_mul, hden]
  have hn : ((yearRows df y).length : ℚ) ≠ 0 := by
    have : (yearRows df y).length ≠ 0 := by
      intro hc
      exact h (List.length_eq_zero.mp hc)
    exact_mod_cast this
  rw [div_self hn]
  norm_num

/-- C5 witness: in the sample merge the single AY 24-25 category carries
100 percent of its year. -/
theorem cat_percentages_sum_100_witness :
    ((((cat_counts mergedSample).filter (fun e => decide (e.1.1 = "AY 24-25"))).map
        (fun e => e.2)).sum = (yearRows mergedSample "AY 24-25").length) ∧
    (((catPercentages mergedSample).filter (fun e => decide (e.1.1 = "AY 24-25"))).map
        (fun e => e.2)).sum = 100 :=
  cat_percentages_sum_100 mergedSample "AY 24-25" (by decide)
